import Mathlib

/-
  Verification of the licensify license-validation client engine.

  The repository ships the client library's README, the backend dashboard
  frontend and its state store.  The validator / cache-store / device-identity
  core (the Python package body) is not present among the source files, so the
  definitions below that carry a doc comment starting with
  `Modelled from the spec:` are faithful translations of the specification's
  words (spec sections 3, 4.2, 4.3 and 6).  The zustand license store
  (`deleteDevice` and friends) is present in the source and is translated
  directly from it.
-/

namespace Licensify

/-- Seconds in one day, the unit used for day-count arithmetic. -/
def secondsPerDay : Int := 86400

/-- Modelled from the spec: the license-type enumeration
`{unlimited, trial, limited}` of a `ValidationResult`. -/
inductive LicenseType where
  | unlimited
  | trial
  | limited
  deriving DecidableEq, Repr

/-- Modelled from the spec: the fields of a `ValidationResult` minus the
cache-derived `from_cache` / `cache_expires_at`, i.e. exactly what a
`CacheEntry` persists as `result`.  Timestamps are seconds as `Int`. -/
structure CachedResult where
  valid : Bool
  license_type : LicenseType
  expires_at : Option Int
  days_remaining : Option Int
  current_devices : Int
  max_devices : Int
  deriving DecidableEq, Repr

/-- Modelled from the spec: the full `ValidationResult` record returned by
`validate()` / `activate()`. -/
structure ValidationResult where
  valid : Bool
  license_type : LicenseType
  expires_at : Option Int
  days_remaining : Option Int
  current_devices : Int
  max_devices : Int
  from_cache : Bool
  cache_expires_at : Option Int
  deriving DecidableEq, Repr

/-- Modelled from the spec: a persisted `CacheEntry`
`{result, fetched_at, license_key_hash, device_fingerprint}`. -/
structure CacheEntry where
  result : CachedResult
  fetched_at : Int
  license_key_hash : String
  device_fingerprint : String
  deriving DecidableEq, Repr

/-- Modelled from the spec: the validator configuration relevant to the
trust decision (license key and grace-period length in seconds; the grace
period defaults to 30 days). -/
structure Config where
  license_key : String
  app_version : String
  grace_period : Int
  deriving DecidableEq, Repr

/-- Modelled from the spec: the one-way digest binding a cache entry to the
license key it was recorded for.  The concrete hash is irrelevant to the
trust logic; any injective digest function has the same behaviour here. -/
def licenseKeyHash (key : String) : String :=
  String.append "sha256:" key

/-- Modelled from the spec: the exception taxonomy of section 7, as a closed
variant type. -/
inductive LicenseError where
  | invalidLicenseKey
  | licenseExpired
  | deviceCountExceeded
  | network
  | cacheExpired
  | deviceIdentityUnavailable
  deriving DecidableEq, Repr

/-- Modelled from the spec: a well-formed outcome of the remote `/validate`
call as seen by the client: either the success payload, one of the three
structured negative discriminants, or a network failure (timeout,
connection error, malformed response). -/
inductive RemoteOutcome where
  | ok (r : CachedResult)
  | errInvalidKey
  | errExpired
  | errDeviceLimit
  | netFailure
  deriving DecidableEq, Repr

/-- Modelled from the spec: outcome of the remote `/activate` call; spec
section 4.3 names `NetworkException` / `DeviceCountExceededException` /
`InvalidLicenseKeyException` as its failure modes. -/
inductive ActivateOutcome where
  | ok (r : CachedResult)
  | errInvalidKey
  | errDeviceLimit
  | netFailure
  deriving DecidableEq, Repr

/-- Modelled from the spec: day counts are whole days, the remaining
duration rounded down, floored at zero. -/
def daysRemaining (expiresAt now : Int) : Int :=
  max 0 (Int.fdiv (expiresAt - now) secondsPerDay)

/-- Modelled from the spec: the offline trust boundary
`cache_deadline = min(fetched_at + grace_period, expires_at or +infinity)`. -/
def cacheDeadline (e : CacheEntry) (grace : Int) : Int :=
  match e.result.expires_at with
  | none => e.fetched_at + grace
  | some x => min (e.fetched_at + grace) x

/-- Modelled from the spec: the `Valid` terminal result built from a
well-formed success response: `valid: true, from_cache: false`, the other
fields copied from the response. -/
def onlineResult (r : CachedResult) : ValidationResult :=
  { valid := true
    license_type := r.license_type
    expires_at := r.expires_at
    days_remaining := r.days_remaining
    current_devices := r.current_devices
    max_devices := r.max_devices
    from_cache := false
    cache_expires_at := none }

/-- Modelled from the spec: the `ValidCached` result derived from a cache
entry on network failure: `valid: true, from_cache: true,
cache_expires_at: cache_deadline`, with `days_remaining` recomputed
relative to `now`. -/
def cachedResult (e : CacheEntry) (now deadline : Int) : ValidationResult :=
  { valid := true
    license_type := e.result.license_type
    expires_at := e.result.expires_at
    days_remaining := e.result.expires_at.map (fun x => daysRemaining x now)
    current_devices := e.result.current_devices
    max_devices := e.result.max_devices
    from_cache := true
    cache_expires_at := some deadline }

/-- Modelled from the spec: the cache entry persisted after a successful
remote validation or activation at time `now` for fingerprint `f`. -/
def freshEntry (cfg : Config) (r : CachedResult) (now : Int) (f : String) :
    CacheEntry :=
  { result := r
    fetched_at := now
    license_key_hash := licenseKeyHash cfg.license_key
    device_fingerprint := f }

/-- Modelled from the spec: one `validate()` attempt, section 4.3.  The
device fingerprint is `none` when no stable hardware signal is obtainable;
the cache argument is the entry `CacheStore.load` would return (`none`
covering both NotFound and CacheCorrupt, which callers treat identically).
Returns the call outcome together with the cache state after the call. -/
def validateStep (cfg : Config) (fp : Option String) (resp : RemoteOutcome)
    (now : Int) (cache : Option CacheEntry) :
    Except LicenseError ValidationResult × Option CacheEntry :=
  match fp with
  | none => (.error .deviceIdentityUnavailable, cache)
  | some f =>
    match resp with
    | .errInvalidKey => (.error .invalidLicenseKey, cache)
    | .errExpired => (.error .licenseExpired, cache)
    | .errDeviceLimit => (.error .deviceCountExceeded, cache)
    | .ok r => (.ok (onlineResult r), some (freshEntry cfg r now f))
    | .netFailure =>
      match cache with
      | none => (.error .cacheExpired, none)
      | some e =>
        if e.device_fingerprint = f ∧
            e.license_key_hash = licenseKeyHash cfg.license_key then
          let deadline := cacheDeadline e cfg.grace_period
          if now ≤ deadline then
            (.ok (cachedResult e now deadline), some e)
          else
            (.error .cacheExpired, some e)
        else
          (.error .cacheExpired, some e)

/-- Modelled from the spec: one `activate(key)` attempt, section 4.3 —
always goes to the remote service, never reads the cache, persists the
entry on success, propagates failures with no offline fallback. -/
def activateStep (cfg : Config) (fp : Option String) (resp : ActivateOutcome)
    (now : Int) (cache : Option CacheEntry) :
    Except LicenseError ValidationResult × Option CacheEntry :=
  match fp with
  | none => (.error .deviceIdentityUnavailable, cache)
  | some f =>
    match resp with
    | .errInvalidKey => (.error .invalidLicenseKey, cache)
    | .errDeviceLimit => (.error .deviceCountExceeded, cache)
    | .netFailure => (.error .network, cache)
    | .ok r => (.ok (onlineResult r), some (freshEntry cfg r now f))

/-- Modelled from the spec: the terminal states of one `validate()` call. -/
inductive VState where
  | vValid
  | vValidCached
  | vGraceExpired
  | vInvalid
  | vNetworkFailureNoCache
  | vError
  deriving DecidableEq, Repr

/-- Modelled from the spec: classifies which terminal state a
`validate()` call with these inputs reaches (section 4.3's state machine). -/
def stateOf (cfg : Config) (fp : Option String) (resp : RemoteOutcome)
    (now : Int) (cache : Option CacheEntry) : VState :=
  match fp with
  | none => .vError
  | some f =>
    match resp with
    | .errInvalidKey => .vInvalid
    | .errExpired => .vInvalid
    | .errDeviceLimit => .vInvalid
    | .ok _ => .vValid
    | .netFailure =>
      match cache with
      | none => .vNetworkFailureNoCache
      | some e =>
        if e.device_fingerprint = f ∧
            e.license_key_hash = licenseKeyHash cfg.license_key then
          if now ≤ cacheDeadline e cfg.grace_period then .vValidCached
          else .vGraceExpired
        else .vNetworkFailureNoCache

/-- Modelled from the spec: `is_valid()` — the non-throwing wrapper around
`validate()`: `true` only for a successful result, every exception kind
swallowed into `false`. -/
def is_valid (cfg : Config) (fp : Option String) (resp : RemoteOutcome)
    (now : Int) (cache : Option CacheEntry) : Bool :=
  match (validateStep cfg fp resp now cache).1 with
  | .ok r => r.valid
  | .error _ => false

/-- Modelled from the spec: the server-side license state relevant to one
validation decision (sections 6 and 4.3): whether the key is known, type,
expiry, device counts. -/
structure ServerLicense where
  known : Bool
  license_type : LicenseType
  expires_at : Option Int
  current_devices : Int
  max_devices : Int
  deriving DecidableEq, Repr

/-- Modelled from the spec: whether a license with this expiry is lapsed at
time `now`. -/
def isExpired (ea : Option Int) (now : Int) : Bool :=
  match ea with
  | none => false
  | some x => decide (x < now)

/-- Modelled from the spec: the `/validate` decision on the server:
unknown key, expired license, device limit (with `max_devices = 0`
denoting unlimited and exempt from the check), or the success payload
whose `days_remaining` is a whole-day floor clamped at zero. -/
def serverValidate (lic : ServerLicense) (now : Int) : RemoteOutcome :=
  if lic.known = false then .errInvalidKey
  else if isExpired lic.expires_at now then .errExpired
  else if lic.max_devices ≠ 0 ∧ lic.max_devices < lic.current_devices then
    .errDeviceLimit
  else
    .ok
      { valid := true
        license_type := lic.license_type
        expires_at := lic.expires_at
        days_remaining := lic.expires_at.map (fun x => daysRemaining x now)
        current_devices := lic.current_devices
        max_devices := lic.max_devices }

/-- Modelled from the spec: the `/activate` decision on the server:
unknown key, device-slot check (`max_devices = 0` unlimited and exempt),
otherwise registers the device and mirrors the `/validate` success shape. -/
def serverActivate (lic : ServerLicense) (now : Int) : ActivateOutcome :=
  if lic.known = false then .errInvalidKey
  else if lic.max_devices ≠ 0 ∧ lic.max_devices ≤ lic.current_devices then
    .errDeviceLimit
  else
    .ok
      { valid := true
        license_type := lic.license_type
        expires_at := lic.expires_at
        days_remaining := lic.expires_at.map (fun x => daysRemaining x now)
        current_devices := lic.current_devices + 1
        max_devices := lic.max_devices }

/-- Modelled from the spec: a primitive value in the persisted cache file. -/
inductive JVal where
  | jnum (n : Int)
  | jstr (s : String)
  | jbool (b : Bool)
  | jnull
  deriving DecidableEq, Repr

/-- Modelled from the spec: the field keys of the persisted cache record. -/
inductive FieldTag where
  | version
  | valid
  | license_type
  | expires_at
  | days_remaining
  | current_devices
  | max_devices
  | fetched_at
  | license_key_hash
  | device_fingerprint
  deriving DecidableEq, Repr

/-- Modelled from the spec: the on-disk cache format — a keyed record with
an embedded schema-version tag. -/
abbrev CacheFile : Type := List (FieldTag × JVal)

/-- Modelled from the spec: the current cache schema version tag. -/
def cacheSchemaVersion : Int := 1

/-- Modelled from the spec: textual form of a license type in the cache
file. -/
def licenseTypeToString : LicenseType → String
  | .unlimited => "unlimited"
  | .trial => "trial"
  | .limited => "limited"

/-- Modelled from the spec: parses a license type back from its textual
form; unknown strings are rejected. -/
def licenseTypeOfString : String → Option LicenseType
  | "unlimited" => some .unlimited
  | "trial" => some .trial
  | "limited" => some .limited
  | _ => none

/-- Modelled from the spec: an optional timestamp in the cache file. -/
def encOptInt : Option Int → JVal
  | none => .jnull
  | some n => .jnum n

/-- Modelled from the spec: reads an optional timestamp back. -/
def decOptInt : JVal → Option (Option Int)
  | .jnull => some none
  | .jnum n => some (some n)
  | _ => none

/-- Modelled from the spec: `CacheStore.save` serialises the entry into the
versioned on-disk record (atomic replacement is a filesystem concern and is
not part of the value-level round trip). -/
def encodeEntry (e : CacheEntry) : CacheFile :=
  [(.version, .jnum cacheSchemaVersion),
   (.valid, .jbool e.result.valid),
   (.license_type, .jstr (licenseTypeToString e.result.license_type)),
   (.expires_at, encOptInt e.result.expires_at),
   (.days_remaining, encOptInt e.result.days_remaining),
   (.current_devices, .jnum e.result.current_devices),
   (.max_devices, .jnum e.result.max_devices),
   (.fetched_at, .jnum e.fetched_at),
   (.license_key_hash, .jstr e.license_key_hash),
   (.device_fingerprint, .jstr e.device_fingerprint)]

/-- Modelled from the spec: `CacheStore.load` parses the persisted record,
rejecting an unrecognised shape or schema version (CacheCorrupt, treated as
NotFound by callers). -/
def decodeEntry : CacheFile → Option CacheEntry
  | [(.version, .jnum v), (.valid, .jbool b),
     (.license_type, .jstr t), (.expires_at, ea), (.days_remaining, dr),
     (.current_devices, .jnum cd), (.max_devices, .jnum md),
     (.fetched_at, .jnum fa), (.license_key_hash, .jstr kh),
     (.device_fingerprint, .jstr df)] =>
    if v = cacheSchemaVersion then
      match licenseTypeOfString t, decOptInt ea, decOptInt dr with
      | some lt, some ea2, some dr2 =>
        some
          { result :=
              { valid := b
                license_type := lt
                expires_at := ea2
                days_remaining := dr2
                current_devices := cd
                max_devices := md }
            fetched_at := fa
            license_key_hash := kh
            device_fingerprint := df }
      | _, _, _ => none
    else none
  | _ => none

/-- Translated from the source (`src/unnamed/part_002`, the zustand license
store): a device row as the store uses it — only `id` is consulted. -/
structure StoreDevice where
  id : Nat
  deriving DecidableEq, Repr

/-- Translated from the source: the `selectedLicense` slice of the store
state touched by `deleteDevice`. -/
structure SelectedLicense where
  devices : List StoreDevice
  current_devices : Int
  deriving DecidableEq, Repr

/-- Translated from the source (`deleteDevice`, part_002 lines 137-153):
after a successful API delete, filters the device list by id and
decrements `current_devices` by one; with no selected license the state is
unchanged. -/
def deleteDevice (deviceId : Nat) (s : Option SelectedLicense) :
    Option SelectedLicense :=
  match s with
  | none => none
  | some lic =>
    some
      { devices := lic.devices.filter (fun d => d.id != deviceId)
        current_devices := lic.current_devices - 1 }

/-- Concrete configuration used to instantiate the theorems below: grace
period of 30 days (2592000 seconds). -/
def wCfg : Config :=
  { license_key := "KEY", app_version := "1.0", grace_period := 2592000 }

/-- Concrete positive validation payload: a trial license expiring at
t = 432000 (5 days after epoch). -/
def wResult : CachedResult :=
  { valid := true
    license_type := .trial
    expires_at := some 432000
    days_remaining := some 5
    current_devices := 1
    max_devices := 1 }

/-- Concrete cache entry recorded at t = 0 for device "dev" under `wCfg`. -/
def wEntry : CacheEntry :=
  { result := wResult
    fetched_at := 0
    license_key_hash := licenseKeyHash "KEY"
    device_fingerprint := "dev" }

/-- Concrete cache entry recorded for a different device fingerprint. -/
def wEntryOther : CacheEntry :=
  { wEntry with device_fingerprint := "other" }

/-- Concrete server license with `max_devices = 0` (unlimited) and a huge
device roster. -/
def wLicense : ServerLicense :=
  { known := true
    license_type := .unlimited
    expires_at := none
    current_devices := 1000000
    max_devices := 0 }

/-- Nonnegativity of the whole-day floor computation. -/
theorem daysRemaining_nonneg (x n : Int) : 0 ≤ daysRemaining x n :=
  le_max_left 0 _

/-- C1: on network failure with a cache entry recorded for this device and
key, while `now` is at or before
`cache_deadline = min(fetched_at + grace, expires_at or +infinity)`,
`validate()` returns the cached result with `valid: true, from_cache: true,
cache_expires_at = cache_deadline` and `days_remaining` recomputed
relative to `now`. -/
theorem validate_cached_within_deadline
    (cfg : Config) (f : String) (now : Int) (e : CacheEntry)
    (hfp : e.device_fingerprint = f)
    (hkey : e.license_key_hash = licenseKeyHash cfg.license_key)
    (hnow : now ≤ cacheDeadline e cfg.grace_period) :
    validateStep cfg (some f) .netFailure now (some e)
      = (.ok (cachedResult e now (cacheDeadline e cfg.grace_period)), some e)
    ∧ (cachedResult e now (cacheDeadline e cfg.grace_period)).valid = true
    ∧ (cachedResult e now (cacheDeadline e cfg.grace_period)).from_cache = true
    ∧ (cachedResult e now (cacheDeadline e cfg.grace_period)).cache_expires_at
        = some (cacheDeadline e cfg.grace_period)
    ∧ (cachedResult e now (cacheDeadline e cfg.grace_period)).days_remaining
        = e.result.expires_at.map (fun x => daysRemaining x now)
    ∧ (e.result.expires_at = none →
        cacheDeadline e cfg.grace_period = e.fetched_at + cfg.grace_period)
    ∧ (∀ x, e.result.expires_at = some x →
        cacheDeadline e cfg.grace_period
          = min (e.fetched_at + cfg.grace_period) x) := by
  refine ⟨?_, rfl, rfl, rfl, rfl, ?_, ?_⟩
  · simp [validateStep, hfp, hkey, hnow]
  · intro h
    simp [cacheDeadline, h]
  · intro x h
    simp [cacheDeadline, h]

/-- Witness for C1 at the concrete entry `wEntry`, two days after fetch. -/
theorem validate_cached_within_deadline_witness :
    validateStep wCfg (some "dev") RemoteOutcome.netFailure 172800 (some wEntry)
      = (.ok (cachedResult wEntry 172800 (cacheDeadline wEntry wCfg.grace_period)),
         some wEntry) :=
  (validate_cached_within_deadline wCfg "dev" 172800 wEntry rfl rfl (by decide)).1

/-- C2: on network failure with a cache entry recorded for this device and
key but `now` strictly past the cache deadline, `validate()` raises
`CacheExpiredException` while the cache record still exists. -/
theorem validate_cache_expired_after_deadline
    (cfg : Config) (f : String) (now : Int) (e : CacheEntry)
    (hfp : e.device_fingerprint = f)
    (hkey : e.license_key_hash = licenseKeyHash cfg.license_key)
    (hnow : cacheDeadline e cfg.grace_period < now) :
    validateStep cfg (some f) .netFailure now (some e)
      = (.error .cacheExpired, some e) := by
  simp [validateStep, hfp, hkey, not_le.mpr hnow]

/-- Witness for C2 at the concrete entry `wEntry`, 31+ days after fetch. -/
theorem validate_cache_expired_after_deadline_witness :
    validateStep wCfg (some "dev") RemoteOutcome.netFailure 2700000 (some wEntry)
      = (.error .cacheExpired, some wEntry) :=
  validate_cache_expired_after_deadline wCfg "dev" 2700000 wEntry rfl rfl (by decide)

/-- C3: each negative server response maps to its exception, and the cache
state after the call is exactly the cache state before it — negative
results are never written, so a prior positive entry remains the record. -/
theorem negative_responses_never_cached
    (cfg : Config) (f : String) (now : Int) (cache : Option CacheEntry) :
    validateStep cfg (some f) .errExpired now cache
      = (.error .licenseExpired, cache)
    ∧ validateStep cfg (some f) .errInvalidKey now cache
      = (.error .invalidLicenseKey, cache)
    ∧ validateStep cfg (some f) .errDeviceLimit now cache
      = (.error .deviceCountExceeded, cache) :=
  ⟨rfl, rfl, rfl⟩

/-- C4: `activate()` never reads the cache — its outcome is independent of
the prior cache state; on success it persists the fresh entry and returns
the server-backed result; on failure the error is one of
network / device-count-exceeded / invalid-key, with no offline fallback. -/
theorem activate_ignores_cache
    (cfg : Config) (f : String) (resp : ActivateOutcome) (now : Int)
    (c1 c2 : Option CacheEntry) :
    (activateStep cfg (some f) resp now c1).1
      = (activateStep cfg (some f) resp now c2).1
    ∧ (∀ r, resp = .ok r →
        activateStep cfg (some f) resp now c1
          = (.ok (onlineResult r), some (freshEntry cfg r now f)))
    ∧ (∀ err, (activateStep cfg (some f) resp now c1).1 = .error err →
        err = .network ∨ err = .deviceCountExceeded
          ∨ err = .invalidLicenseKey) := by
  cases resp <;> simp [activateStep]

/-- Witness for C4: two different prior caches, same activation outcome. -/
theorem activate_ignores_cache_witness :
    (activateStep wCfg (some "dev") ActivateOutcome.netFailure 0 (some wEntry)).1
      = (activateStep wCfg (some "dev") ActivateOutcome.netFailure 0 none).1 :=
  (activate_ignores_cache wCfg "dev" .netFailure 0 (some wEntry) none).1

/-- C5: `is_valid()` is total and boolean; it is `true` exactly when the
underlying `validate()` call reaches terminal state `Valid` or
`ValidCached`, and it is `false` whenever `validate()` raises any
exception kind. -/
theorem is_valid_iff_valid_state
    (cfg : Config) (fp : Option String) (resp : RemoteOutcome) (now : Int)
    (cache : Option CacheEntry) :
    (is_valid cfg fp resp now cache = true ↔
      stateOf cfg fp resp now cache = .vValid ∨
      stateOf cfg fp resp now cache = .vValidCached)
    ∧ (∀ err, (validateStep cfg fp resp now cache).1 = .error err →
        is_valid cfg fp resp now cache = false) := by
  cases fp with
  | none => simp [is_valid, validateStep, stateOf]
  | some f =>
    cases resp with
    | ok r => simp [is_valid, validateStep, stateOf, onlineResult]
    | errInvalidKey => simp [is_valid, validateStep, stateOf]
    | errExpired => simp [is_valid, validateStep, stateOf]
    | errDeviceLimit => simp [is_valid, validateStep, stateOf]
    | netFailure =>
      cases cache with
      | none => simp [is_valid, validateStep, stateOf]
      | some e =>
        by_cases hm : e.device_fingerprint = f ∧
            e.license_key_hash = licenseKeyHash cfg.license_key
        · by_cases hn : now ≤ cacheDeadline e cfg.grace_period
          · simp [is_valid, validateStep, stateOf, hm, hn, cachedResult]
          · simp [is_valid, validateStep, stateOf, hm, hn]
        · simp [is_valid, validateStep, stateOf, hm]

/-- Witness for C5 at a concrete cached validation. -/
theorem is_valid_iff_valid_state_witness :
    is_valid wCfg (some "dev") RemoteOutcome.netFailure 172800 (some wEntry)
        = true ↔
      stateOf wCfg (some "dev") RemoteOutcome.netFailure 172800 (some wEntry)
          = .vValid ∨
      stateOf wCfg (some "dev") RemoteOutcome.netFailure 172800 (some wEntry)
          = .vValidCached :=
  (is_valid_iff_valid_state wCfg (some "dev") .netFailure 172800
    (some wEntry)).1

/-- C6: a cache entry recorded for a different device fingerprint or a
different license key is treated as no entry — on network failure
`validate()` fails closed with `CacheExpiredException` instead of
honoring it. -/
theorem cache_mismatch_fails_closed
    (cfg : Config) (f : String) (now : Int) (e : CacheEntry)
    (hmm : e.device_fingerprint ≠ f ∨
      e.license_key_hash ≠ licenseKeyHash cfg.license_key) :
    validateStep cfg (some f) .netFailure now (some e)
      = (.error .cacheExpired, some e) := by
  have h : ¬(e.device_fingerprint = f ∧
      e.license_key_hash = licenseKeyHash cfg.license_key) := by
    rcases hmm with h1 | h1 <;> exact fun hc => h1 (by tauto)
  simp [validateStep, h]

/-- Witness for C6 at an entry recorded for device "other". -/
theorem cache_mismatch_fails_closed_witness :
    validateStep wCfg (some "dev") RemoteOutcome.netFailure 172800
        (some wEntryOther)
      = (.error .cacheExpired, some wEntryOther) :=
  cache_mismatch_fails_closed wCfg "dev" 172800 wEntryOther
    (Or.inl (by decide))

/-- C7: a cache entry written by `save()` and read back by `load()`
reproduces the identical `ValidationResult` fields (the persisted record
holds no `from_cache` / `cache_expires_at`, which are recomputed). -/
theorem cache_roundtrip (e : CacheEntry) :
    decodeEntry (encodeEntry e) = some e := by
  obtain ⟨⟨b, lt, ea, dr, cd, md⟩, fa, kh, df⟩ := e
  cases lt <;> cases ea <;> cases dr <;> rfl

/-- C8: a license with `max_devices = 0` denotes unlimited devices;
neither `validate()` nor `activate()` ever surfaces
`DeviceCountExceededException` for it, regardless of `current_devices`. -/
theorem max_devices_zero_unlimited
    (cfg : Config) (f : String) (lic : ServerLicense) (now : Int)
    (cache : Option CacheEntry)
    (h : lic.max_devices = 0) :
    (validateStep cfg (some f) (serverValidate lic now) now cache).1
        ≠ .error .deviceCountExceeded
    ∧ (activateStep cfg (some f) (serverActivate lic now) now cache).1
        ≠ .error .deviceCountExceeded := by
  constructor
  · simp only [serverValidate, h]
    split_ifs with hk he hd
    · simp [validateStep]
    · simp [validateStep]
    · exact absurd rfl hd.1
    · simp [validateStep]
  · simp only [serverActivate, h]
    split_ifs with hk hd
    · simp [activateStep]
    · exact absurd rfl hd.1
    · simp [activateStep]

/-- Witness for C8 at a license with a million devices and
`max_devices = 0`. -/
theorem max_devices_zero_unlimited_witness :
    (validateStep wCfg (some "dev") (serverValidate wLicense 0) 0 none).1
        ≠ .error .deviceCountExceeded
    ∧ (activateStep wCfg (some "dev") (serverActivate wLicense 0) 0 none).1
        ≠ .error .deviceCountExceeded :=
  max_devices_zero_unlimited wCfg "dev" wLicense 0 none rfl

/-- C9: every `days_remaining` surfaced in a successful result — whether
from a server-backed validation, a cached validation, or an activation —
is a whole-day count floored at zero, hence never negative. -/
theorem surfaced_days_nonneg
    (cfg : Config) (f : String) (lic : ServerLicense) (now : Int)
    (cache : Option CacheEntry) (resp : RemoteOutcome)
    (hresp : resp = serverValidate lic now ∨ resp = .netFailure) :
    (∀ r st d, validateStep cfg (some f) resp now cache = (.ok r, st) →
        r.days_remaining = some d → 0 ≤ d)
    ∧ (∀ r st d,
        activateStep cfg (some f) (serverActivate lic now) now cache
          = (.ok r, st) →
        r.days_remaining = some d → 0 ≤ d) := by
  constructor
  · intro r st d h hd
    rcases hresp with hv | hv
    · subst hv
      simp only [serverValidate] at h
      split_ifs at h <;> simp [validateStep] at h
      obtain ⟨hr, _⟩ := h
      subst hr
      simp [onlineResult] at hd
      cases hx : lic.expires_at with
      | none => simp [hx] at hd
      | some x =>
        simp [hx] at hd
        exact hd ▸ daysRemaining_nonneg x now
    · subst hv
      cases cache with
      | none => simp [validateStep] at h
      | some e =>
        by_cases hm : e.device_fingerprint = f ∧
            e.license_key_hash = licenseKeyHash cfg.license_key
        · by_cases hn : now ≤ cacheDeadline e cfg.grace_period
          · simp [validateStep, hm, hn] at h
            obtain ⟨hr, _⟩ := h
            subst hr
            simp [cachedResult] at hd
            cases hx : e.result.expires_at with
            | none => simp [hx] at hd
            | some x =>
              simp [hx] at hd
              exact hd ▸ daysRemaining_nonneg x now
          · simp [validateStep, hm, hn] at h
        · simp [validateStep, hm] at h
  · intro r st d h hd
    simp only [serverActivate] at h
    split_ifs at h <;> simp [activateStep] at h
    obtain ⟨hr, _⟩ := h
    subst hr
    simp [onlineResult] at hd
    cases hx : lic.expires_at with
    | none => simp [hx] at hd
    | some x =>
      simp [hx] at hd
      exact hd ▸ daysRemaining_nonneg x now

/-- Witness for C9 at the concrete cached validation of `wEntry`. -/
theorem surfaced_days_nonneg_witness :
    (0 : Int) ≤ daysRemaining 432000 172800 :=
  (surfaced_days_nonneg wCfg "dev" wLicense 172800 (some wEntry)
      RemoteOutcome.netFailure (Or.inr rfl)).1
    (cachedResult wEntry 172800 (cacheDeadline wEntry wCfg.grace_period))
    (some wEntry) (daysRemaining 432000 172800)
    (by simp [validateStep, wEntry, wCfg, wResult, licenseKeyHash, cacheDeadline]) rfl

/-- C10: `deleteDevice` on the license store decrements
`selectedLicense.current_devices` by exactly one, unconditionally — even
when the id matches no device in the list — so the local count can fall
below the device-list length and can become negative. -/
theorem deleteDevice_decrements_unconditionally :
    (∀ (lic : SelectedLicense) (deviceId : Nat),
      deleteDevice deviceId (some lic)
        = some { devices := lic.devices.filter (fun d => d.id != deviceId)
                 current_devices := lic.current_devices - 1 })
    ∧ (deleteDevice 5
          (some ({ devices := [{ id := 1 }], current_devices := 0 } :
            SelectedLicense))).map (fun l => l.current_devices) = some (-1)
    ∧ (deleteDevice 5
          (some ({ devices := [{ id := 1 }], current_devices := 0 } :
            SelectedLicense))).map (fun l => (l.devices.length : Int))
        = some 1
    ∧ (-1 : Int) < 0 ∧ (-1 : Int) < 1 :=
  ⟨fun lic deviceId => rfl, by decide, by decide, by decide, by decide⟩

end Licensify
